import Mathlib

/-!
Verification development for the stick-to-bottom scroll engine
(`useStickToBottom`): a shallow embedding of the engine's state record,
the animation parameter resolver (`mergeAnimations` and its cache), the
spring animator frame step, the scroll-notification handler and the
public commands, together with theorems settling the specified
properties. Scroll offsets and spring quantities are modelled as exact
rationals; the scroll surface's write semantics (clamping at scroll
boundaries) is a parameter `w : ℚ → ℚ` wherever an offset is written.
-/

namespace StickToBottom

/-- A fully-populated spring parameter triple (`Required<SpringAnimation>`). -/
structure SpringTriple where
  damping : ℚ
  stiffness : ℚ
  mass : ℚ
deriving DecidableEq, Repr

/-- `DEFAULT_SPRING_ANIMATION`: damping 0.7, stiffness 0.05, mass 1.25. -/
def DEFAULT_SPRING_ANIMATION : SpringTriple :=
  { damping := 7/10, stiffness := 1/20, mass := 5/4 }

/-- A resolved animation behavior: the sentinel `"instant"` or a triple. -/
inductive Behavior where
  | instant
  | spring (t : SpringTriple)
deriving DecidableEq, Repr

/-- One source passed to `mergeAnimations`: the string `"instant"`, a
partial spring object (absent fields are `undefined`), or any other
value (`undefined`, booleans, other strings such as `"smooth"`), which
the loop skips because `typeof animation !== "object"`. -/
inductive AnimSource where
  | instant
  | obj (damping stiffness mass : Option ℚ)
  | other
deriving DecidableEq, Repr

/-- The body of the `for` loop in `mergeAnimations`, acting on the
accumulator `(result, instant)`:
`"instant"` sets the flag and `continue`s (leaving `result` untouched),
a non-object is skipped, and an object clears the flag and overrides
each field via `??`. -/
def mergeStep : SpringTriple × Bool → AnimSource → SpringTriple × Bool
  | (r, _), AnimSource.instant => (r, true)
  | acc, AnimSource.other => acc
  | (r, _), AnimSource.obj d s m =>
      ({ damping := d.getD r.damping,
         stiffness := s.getD r.stiffness,
         mass := m.getD r.mass }, false)

/-- `mergeAnimations(...animations)`: fold the sources left-to-right over
the defaults, then return `"instant"` or the resulting triple. -/
def mergeAnimations (sources : List AnimSource) : Behavior :=
  let acc := sources.foldl mergeStep (DEFAULT_SPRING_ANIMATION, false)
  if acc.2 then Behavior.instant else Behavior.spring acc.1

/-- `mergeAnimations` as the specification words it, for comparison:
identical except that encountering `"instant"` also resets the
accumulated overrides back to the defaults. -/
def mergeStepClaimed : SpringTriple × Bool → AnimSource → SpringTriple × Bool
  | (_, _), AnimSource.instant => (DEFAULT_SPRING_ANIMATION, true)
  | acc, AnimSource.other => acc
  | (r, _), AnimSource.obj d s m =>
      ({ damping := d.getD r.damping,
         stiffness := s.getD r.stiffness,
         mass := m.getD r.mass }, false)

/-- The spec-worded resolver built from `mergeStepClaimed`. -/
def mergeAnimationsClaimed (sources : List AnimSource) : Behavior :=
  let acc := sources.foldl mergeStepClaimed (DEFAULT_SPRING_ANIMATION, false)
  if acc.2 then Behavior.instant else Behavior.spring acc.1

/-- The effect of one source on the triple alone: object sources
override fields; `"instant"` and non-objects leave the triple alone. -/
def applyObjStep (r : SpringTriple) (a : AnimSource) : SpringTriple :=
  match a with
  | AnimSource.obj d s m =>
      { damping := d.getD r.damping,
        stiffness := s.getD r.stiffness,
        mass := m.getD r.mass }
  | _ => r

/-- The effect of one source on the instant flag alone: `"instant"`
raises it, an object clears it, a non-object leaves it. -/
def instantFlagStep (b : Bool) (a : AnimSource) : Bool :=
  match a with
  | AnimSource.instant => true
  | AnimSource.obj _ _ _ => false
  | AnimSource.other => b

/-- The triple component of the whole fold, in isolation. -/
def finalTriple (sources : List AnimSource) : SpringTriple :=
  sources.foldl applyObjStep DEFAULT_SPRING_ANIMATION

/-- The instant flag of the whole fold, in isolation: true exactly when
the last source that is either `"instant"` or an object is `"instant"`. -/
def finalInstant (sources : List AnimSource) : Bool :=
  sources.foldl instantFlagStep false

/-! ### The animation cache

`animationCache` maps `JSON.stringify(result)` to the frozen triple
object. Field insertion order is fixed (`{...DEFAULT_SPRING_ANIMATION}`),
so the key is injective in the triple: the cache is modelled as the list
of triples in insertion order, and object identity as the insertion
index a triple received. -/

/-- The index at which a triple sits in the cache (first occurrence). -/
def cacheIdx : List SpringTriple → SpringTriple → Nat
  | [], _ => 0
  | x :: xs, t => if x = t then 0 else cacheIdx xs t + 1

/-- `if (!animationCache.has(key)) animationCache.set(key, Object.freeze(result))`
followed by `animationCache.get(key)`: returns the updated cache and the
identity (insertion index) of the object handed back to the caller. -/
def cacheStep (c : List SpringTriple) (t : SpringTriple) : List SpringTriple × Nat :=
  if t ∈ c then (c, cacheIdx c t) else (c ++ [t], c.length)

/-- A resolved behavior together with the identity of the shared frozen
object when it is a spring (the `"instant"` sentinel needs no identity:
`===` on the string is value comparison). -/
inductive CachedBehavior where
  | instant
  | springRef (id : Nat) (t : SpringTriple)
deriving DecidableEq, Repr

/-- The whole resolver including the cache: merge the sources, always
populate the cache with the resulting triple (the source does so even
when the result is instant), and return either the sentinel or a
reference to the shared frozen object. -/
def mergeAnimationsCached (c : List SpringTriple) (sources : List AnimSource) :
    List SpringTriple × CachedBehavior :=
  let acc := sources.foldl mergeStep (DEFAULT_SPRING_ANIMATION, false)
  let step := cacheStep c acc.1
  (step.1, if acc.2 then CachedBehavior.instant else CachedBehavior.springRef step.2 acc.1)

/-! ### The engine state record

`StickToBottomState` mirrors the source interface. `scrollTop` is the
live offset of the scroll surface (in the source a getter reading the
DOM); `isAtBottom`, `escapedFromLock` and `isNearBottom` are the fields
kept in sync with the React `useState` mirrors by `setIsAtBottom`,
`setEscapedFromLock` and `setIsNearBottom`. -/

/-- The active-animation record `{ behavior, ignoreEscapes, promise }`;
the promise is modelled by an identity. -/
structure AnimationRec where
  behavior : Behavior
  ignoreEscapes : Bool
  promiseId : Nat
deriving DecidableEq, Repr

/-- The mutable engine state (one record per mounted engine). -/
structure StickToBottomState where
  scrollTop : ℚ
  lastScrollTop : Option ℚ
  ignoreScrollToTop : Option ℚ
  resizeDifference : ℚ
  animation : Option AnimationRec
  lastTick : Option ℚ
  velocity : ℚ
  accumulated : ℚ
  escapedFromLock : Bool
  isAtBottom : Bool
  isNearBottom : Bool
deriving DecidableEq, Repr

/-- The state as first created by the hook with `initial !== false`:
`useState(false)` for `escapedFromLock` and `isNearBottom`,
`useState(options.initial !== false)` for `isAtBottom`,
`resizeDifference: 0, accumulated: 0, velocity: 0`. -/
def initialState : StickToBottomState :=
  { scrollTop := 0
    lastScrollTop := none
    ignoreScrollToTop := none
    resizeDifference := 0
    animation := none
    lastTick := none
    velocity := 0
    accumulated := 0
    escapedFromLock := false
    isAtBottom := true
    isNearBottom := false }

/-- `scrollMode`: scrolling bound to the `scrollRef` element or to the
whole document. -/
inductive ScrollMode where
  | element
  | document
deriving DecidableEq, Repr

/-- The `targetScrollTop` getter: `0` in element mode when no content
surface is attached, else `Math.max(0, scrollHeight - 1 - clientHeight)`. -/
def targetScrollTop (mode : ScrollMode) (hasContent : Bool)
    (scrollHeight clientHeight : ℚ) : ℚ :=
  if mode = ScrollMode.element ∧ ¬hasContent then 0
  else max 0 (scrollHeight - 1 - clientHeight)

/-- The per-frame memo `lastCalculation` of the custom-resolver result. -/
structure LastCalculation where
  targetScrollTop : ℚ
  calculatedScrollTop : ℚ
deriving DecidableEq, Repr

/-- The `calculatedTargetScrollTop` getter: `0` behind the same guards as
`targetScrollTop` (plus the document-mode scroll-element guard, which is
unreachable because `getDocumentScrollElement` always returns an
element); the plain target when no custom resolver is configured; the
memoized value when `lastCalculation` matches the current target; else
the resolver's output clamped by `Math.max(Math.min(·, target), 0)`. -/
def calculatedTargetScrollTop (mode : ScrollMode) (hasContent hasScrollElement : Bool)
    (scrollHeight clientHeight : ℚ) (resolver : Option (ℚ → ℚ))
    (lastCalculation : Option LastCalculation) : ℚ :=
  let target := targetScrollTop mode hasContent scrollHeight clientHeight
  if mode = ScrollMode.element ∧ ¬hasContent then 0
  else if mode = ScrollMode.document ∧ ¬hasScrollElement then 0
  else
    match resolver with
    | none => target
    | some f =>
        match lastCalculation with
        | some lc =>
            if lc.targetScrollTop = target then lc.calculatedScrollTop
            else max (min (f target) target) 0
        | none => max (min (f target) target) 0

/-- Well-formedness of the resolver memo: any stored entry was produced
by the clamping, so it lies in `[0, its target]`. -/
def memoWellFormed (o : Option LastCalculation) : Prop :=
  ∀ lc, o = some lc → 0 ≤ lc.calculatedScrollTop ∧ lc.calculatedScrollTop ≤ lc.targetScrollTop

/-- `stopScroll`: `setEscapedFromLock(true); setIsAtBottom(false)` —
nothing else is touched (in particular the animation record stays). -/
def stopScroll (s : StickToBottomState) : StickToBottomState :=
  { s with escapedFromLock := true, isAtBottom := false }

/-- The synchronous entry of `scrollToBottom`:
`if (!scrollOptions.preserveScrollPosition) setIsAtBottom(true)`. -/
def scrollToBottomEntry (preserveScrollPosition : Bool) (s : StickToBottomState) :
    StickToBottomState :=
  if preserveScrollPosition then s else { s with isAtBottom := true }

/-- The `isAtBottom` value placed on the object the hook returns:
`isAtBottom: isAtBottom || isNearBottom`. -/
def hookIsAtBottom (s : StickToBottomState) : Bool :=
  s.isAtBottom || s.isNearBottom

/-! ### The spring animator frame step -/

/-- The values a spring integration step works from: the offset read at
the start of the frame callback, the calculated target, the integration
state, and `tickDelta = (tick - lastTick)/SIXTY_FPS_INTERVAL_MS`. -/
structure FrameIn where
  scrollTop : ℚ
  target : ℚ
  velocity : ℚ
  accumulated : ℚ
  tickDelta : ℚ
deriving DecidableEq, Repr

/-- The integration state after the step and the offset actually stored. -/
structure FrameOut where
  velocity : ℚ
  accumulated : ℚ
  scrollTop : ℚ
deriving DecidableEq, Repr

/-- One spring step of `scrollToBottom/next`, parametrized by the scroll
surface's write semantics `w` (the value actually stored when `x` is
assigned to `scrollTop`, e.g. clamped at a scroll boundary):
`velocity = (damping*velocity + stiffness*scrollDifference)/mass`,
`accumulated += velocity*tickDelta`, `scrollTop += accumulated`, and
`if (state.scrollTop !== scrollTop) state.accumulated = 0` where the
left side re-reads the surface after the write and the right side is
the value read before it. -/
def springFrame (b : SpringTriple) (w : ℚ → ℚ) (f : FrameIn) : FrameOut :=
  let velocity := (b.damping * f.velocity + b.stiffness * (f.target - f.scrollTop)) / b.mass
  let accumulated := f.accumulated + velocity * f.tickDelta
  let written := w (f.scrollTop + accumulated)
  { velocity := velocity
    accumulated := if written ≠ f.scrollTop then 0 else accumulated
    scrollTop := written }

/-- The spring step as the specification words it, for comparison:
identical except that `accumulated` is reset to 0 only when the write
did NOT move the offset, and kept when it did. -/
def springFrameClaimed (b : SpringTriple) (w : ℚ → ℚ) (f : FrameIn) : FrameOut :=
  let velocity := (b.damping * f.velocity + b.stiffness * (f.target - f.scrollTop)) / b.mass
  let accumulated := f.accumulated + velocity * f.tickDelta
  let written := w (f.scrollTop + accumulated)
  { velocity := velocity
    accumulated := if written = f.scrollTop then 0 else accumulated
    scrollTop := written }

/-! ### The full animation frame callback -/

/-- The closure-captured and platform-supplied values one frame callback
of `scrollToBottom/next` sees: the behavior of this `next` chain and its
promise identity, the `ignoreEscapes` option, whether a text selection
over the surface is active, the timestamps, and the calculated target. -/
structure FrameEnv where
  behavior : Behavior
  promiseId : Nat
  ignoreEscapes : Bool
  selecting : Bool
  tick : ℚ
  now : ℚ
  waitElapsed : ℚ
  durationElapsed : ℚ
  calcTarget : ℚ
deriving Repr

/-- How one frame callback ends: resolve the promise, schedule the next
frame (carrying the loop-local `startTarget`), or chain a new
`scrollToBottom` with the resize animation for the remaining duration. -/
inductive FrameResult where
  | resolve (b : Bool)
  | continueNext (startTarget : ℚ)
  | chainResize (remainingDuration : ℚ)
deriving DecidableEq, Repr

/-- Whether the active animation's behavior is (identity-)equal to the
behavior of this `next` chain: `state.animation?.behavior === behavior`.
By the cache theorems below, identity comparison of resolved behaviors
coincides with value equality. -/
def animBehaviorIs (s : StickToBottomState) (b : Behavior) : Bool :=
  match s.animation with
  | some r => r.behavior = b
  | none => false

/-- One frame callback of `scrollToBottom/next`, faithful to the source:
abandon when `isAtBottom` is false; record the tick; adopt the animation
record (`||=`); skip motion while selecting or while `waitElapsed` has
not passed; integrate (instant jump or spring step) while short of
`min(startTarget, calculatedTargetScrollTop)`; refresh `startTarget`
while the duration window is open; otherwise finish, chaining a resize
scroll when still short of the target. -/
def animFrame (env : FrameEnv) (w : ℚ → ℚ) (startTarget : ℚ)
    (s : StickToBottomState) : StickToBottomState × FrameResult :=
  if ¬s.isAtBottom then
    ({ s with animation := none }, FrameResult.resolve false)
  else
    let scrollTop := s.scrollTop
    let tickDelta := (env.tick - (s.lastTick.getD env.tick)) / (1000/60)
    let s :=
      { s with animation := some (s.animation.getD
          { behavior := env.behavior, ignoreEscapes := env.ignoreEscapes,
            promiseId := env.promiseId }) }
    let s := if animBehaviorIs s env.behavior then { s with lastTick := some env.tick } else s
    if env.selecting then (s, FrameResult.continueNext startTarget)
    else if env.waitElapsed > env.now then (s, FrameResult.continueNext startTarget)
    else if scrollTop < min startTarget env.calcTarget then
      let s :=
        if animBehaviorIs s env.behavior then
          match env.behavior with
          | Behavior.instant =>
              { s with scrollTop := w env.calcTarget,
                       ignoreScrollToTop := some (w env.calcTarget) }
          | Behavior.spring b =>
              let out := springFrame b w
                { scrollTop := scrollTop, target := env.calcTarget,
                  velocity := s.velocity, accumulated := s.accumulated,
                  tickDelta := tickDelta }
              { s with velocity := out.velocity, accumulated := out.accumulated,
                       scrollTop := out.scrollTop,
                       ignoreScrollToTop := some out.scrollTop }
        else s
      (s, FrameResult.continueNext startTarget)
    else if env.durationElapsed > env.now then
      (s, FrameResult.continueNext env.calcTarget)
    else
      let s := { s with animation := none }
      if s.scrollTop < env.calcTarget then
        (s, FrameResult.chainResize (max 0 (env.durationElapsed - env.now)))
      else
        (s, FrameResult.resolve s.isAtBottom)

/-- Run frame callbacks until one does not continue, with fuel (the
environment is static: fixed geometry and no passage of time between
frames, which models the instant scenario below exactly). -/
def runFrames (env : FrameEnv) (w : ℚ → ℚ) :
    Nat → ℚ → StickToBottomState → Option (StickToBottomState × FrameResult)
  | 0, _, _ => none
  | fuel + 1, startTarget, s =>
      match animFrame env w startTarget s with
      | (s', FrameResult.continueNext st') => runFrames env w fuel st' s'
      | (s', r) => some (s', r)

/-! ### Animation dispatch (tail of `scrollToBottom`) -/

/-- How `scrollToBottom` hands control to the animator: reuse the active
animation's promise, or start a fresh `next()` loop. -/
inductive Dispatch where
  | existing (promiseId : Nat)
  | newLoop
deriving DecidableEq, Repr

/-- Lines at the tail of `scrollToBottom`:
`if (scrollOptions.wait !== true) state.animation = undefined;`
`if (state.animation?.behavior === behavior) return state.animation.promise;`
`return next();` — returns the animation record after the optional
clearing together with the dispatch decision. -/
def scrollToBottomDispatch (waitIsTrue : Bool) (behavior : Behavior)
    (anim : Option AnimationRec) : Option AnimationRec × Dispatch :=
  let anim := if ¬waitIsTrue then none else anim
  match anim with
  | some r =>
      if r.behavior = behavior then (some r, Dispatch.existing r.promiseId)
      else (some r, Dispatch.newLoop)
  | none => (none, Dispatch.newLoop)

/-! ### The scroll-notification handler -/

/-- The values `handleScroll` captures synchronously for the deferred
(1ms `setTimeout`) check: the `ignoreScrollToTop` in force at event time
and the adjusted `lastScrollTop`. -/
structure DeferredCheck where
  ignoreScrollToTop : Option ℚ
  lastScrollTop : ℚ
deriving DecidableEq, Repr

/-- The synchronous part of `handleScroll`: drop the event when its
target is not `scrollRef.current`; otherwise record the fresh offset in
`lastScrollTop`, clear `ignoreScrollToTop`, adjust the captured
`lastScrollTop` when a truthy `ignoreScrollToTop` exceeds the current
offset, publish `isNearBottom`, and schedule the deferred check. -/
def handleScrollSync (targetIsScrollRef : Bool) (calcTarget : ℚ)
    (s : StickToBottomState) : StickToBottomState × Option DeferredCheck :=
  if ¬targetIsScrollRef then (s, none)
  else
    let scrollTop := s.scrollTop
    let ignoreScrollToTop := s.ignoreScrollToTop
    let lastScrollTop0 := s.lastScrollTop.getD scrollTop
    let currentScrollTop := s.scrollTop
    let lastScrollTop :=
      match ignoreScrollToTop with
      | some v => if v ≠ 0 ∧ v > currentScrollTop then v else lastScrollTop0
      | none => lastScrollTop0
    let s' :=
      { s with lastScrollTop := some currentScrollTop,
               ignoreScrollToTop := none,
               isNearBottom := decide (calcTarget - currentScrollTop ≤ 70) }
    (s', some { ignoreScrollToTop := ignoreScrollToTop, lastScrollTop := lastScrollTop })

/-- `state.animation?.ignoreEscapes` as a boolean. -/
def animIgnoresEscapes (s : StickToBottomState) : Bool :=
  match s.animation with
  | some r => r.ignoreEscapes
  | none => false

/-- The deferred (1ms) body of `handleScroll`, reading the offset fresh:
bail out during a resize or when the offset matches the captured
`ignoreScrollToTop`; escape on an active selection; during an
`ignoreEscapes` animation force the offset back to `lastScrollTop`;
otherwise escape on scroll-up, clear the escape on scroll-down, and
re-stick when not escaped and near the bottom. `w` is the scroll
surface's write semantics. -/
def handleScrollTimeout (selecting : Bool) (captured : DeferredCheck)
    (calcTarget : ℚ) (w : ℚ → ℚ) (s : StickToBottomState) : StickToBottomState :=
  let currentScrollTop := s.scrollTop
  if s.resizeDifference ≠ 0 ∨ captured.ignoreScrollToTop = some currentScrollTop then s
  else if selecting then { s with escapedFromLock := true, isAtBottom := false }
  else
    let isScrollingDown := currentScrollTop > captured.lastScrollTop
    let isScrollingUp := currentScrollTop < captured.lastScrollTop
    if animIgnoresEscapes s then
      { s with scrollTop := w captured.lastScrollTop,
               ignoreScrollToTop := some (w captured.lastScrollTop) }
    else
      let s1 :=
        if isScrollingUp then { s with escapedFromLock := true, isAtBottom := false } else s
      let s2 := if isScrollingDown then { s1 with escapedFromLock := false } else s1
      if ¬s2.escapedFromLock ∧ calcTarget - s2.scrollTop ≤ 70 then
        { s2 with isAtBottom := true }
      else s2

/-! ### The instant-scroll scenario

Content 500px tall, viewport 500px, surface scrolled to the top, default
options, `scrollToBottom({animation: "instant"})`: the behavior resolves
through `mergeAnimations(options, "instant")` where the options record
is a non-instant object with no numeric fields; `setIsAtBottom(true)` is
applied (`preserveScrollPosition` unset); `wait` is unset so the
animation record is cleared and a fresh loop is started; the frames then
run with static geometry, `waitElapsed = now` and duration 0, and the
surface clamping writes to `[0, scrollHeight - clientHeight]`. -/

/-- The whole scenario run; returns the final state and how the loop
resolved (with fuel 3, ample since the geometry is static). -/
def instantScenario : Option (StickToBottomState × FrameResult) :=
  let target := targetScrollTop ScrollMode.element true 500 500
  let behavior := mergeAnimations [AnimSource.obj none none none, AnimSource.instant]
  let s0 := scrollToBottomEntry false initialState
  let d := scrollToBottomDispatch false behavior s0.animation
  let s1 := { s0 with animation := d.1 }
  let env : FrameEnv :=
    { behavior := behavior, promiseId := 0, ignoreEscapes := false,
      selecting := false, tick := 0, now := 0, waitElapsed := 0,
      durationElapsed := 0, calcTarget := target }
  runFrames env (fun x => max 0 (min x (500 - 500))) 3 target s1

/-- A state that has escaped the lock while still within the near-bottom
threshold (reached e.g. by a small user scroll-up near the bottom). -/
def escapedNearState : StickToBottomState :=
  { initialState with isAtBottom := false, escapedFromLock := true, isNearBottom := true }

/-- An animation record with the instant behavior and escapes honoured. -/
def instantAnimRec : AnimationRec :=
  { behavior := Behavior.instant, ignoreEscapes := false, promiseId := 0 }

/-- A state in which an animation flagged `ignoreEscapes` is in flight
and the surface sits at offset 10. -/
def ignoringAnimState : StickToBottomState :=
  { initialState with
      scrollTop := 10,
      animation := some { behavior := Behavior.instant, ignoreEscapes := true, promiseId := 0 } }

/-- A state with a plain instant animation in flight. -/
def animRunningState : StickToBottomState :=
  { initialState with animation := some instantAnimRec }

/-- A frame environment with all clocks at zero and no selection. -/
def zeroFrameEnv : FrameEnv :=
  { behavior := Behavior.instant, promiseId := 0, ignoreEscapes := false,
    selecting := false, tick := 0, now := 0, waitElapsed := 0,
    durationElapsed := 0, calcTarget := 0 }

/-! ## Helper lemmas -/

/-- The fold of `mergeAnimations` splits componentwise: the triple and
the instant flag evolve independently. -/
theorem foldl_mergeStep_split (l : List AnimSource) (r : SpringTriple) (b : Bool) :
    l.foldl mergeStep (r, b) = (l.foldl applyObjStep r, l.foldl instantFlagStep b) := by
  induction l generalizing r b with
  | nil => rfl
  | cons a t ih =>
      cases a <;> simp [List.foldl, mergeStep, applyObjStep, instantFlagStep, ih]

/-- Inserting a fresh triple at the back puts it at index `length`. -/
theorem cacheIdx_append_self (c : List SpringTriple) (t : SpringTriple) (h : t ∉ c) :
    cacheIdx (c ++ [t]) t = c.length := by
  induction c with
  | nil => simp [cacheIdx]
  | cons x xs ih =>
      have hx : x ≠ t := fun hxt => h (hxt ▸ List.mem_cons_self x xs)
      have hxs : t ∉ xs := fun hm => h (List.mem_cons_of_mem x hm)
      simp [cacheIdx, hx, ih hxs]

/-- The index of a member is unaffected by extending the cache. -/
theorem cacheIdx_append_of_mem (c d : List SpringTriple) (t : SpringTriple) (h : t ∈ c) :
    cacheIdx (c ++ d) t = cacheIdx c t := by
  induction c with
  | nil => cases h
  | cons x xs ih =>
      by_cases hx : x = t
      · simp [cacheIdx, hx]
      · have hm : t ∈ xs := by
          rcases List.mem_cons.mp h with h' | h'
          · exact absurd h'.symm hx
          · exact h'
        simp [cacheIdx, hx, ih hm]

/-- Two members of the cache with the same index are equal. -/
theorem cacheIdx_inj (c : List SpringTriple) (t1 t2 : SpringTriple)
    (h1 : t1 ∈ c) (h2 : t2 ∈ c) (h : cacheIdx c t1 = cacheIdx c t2) : t1 = t2 := by
  induction c with
  | nil => cases h1
  | cons x xs ih =>
      simp only [cacheIdx] at h
      by_cases hx1 : x = t1
      · by_cases hx2 : x = t2
        · exact hx1.symm.trans hx2
        · rw [if_pos hx1, if_neg hx2] at h
          exact absurd h (by omega)
      · by_cases hx2 : x = t2
        · rw [if_neg hx1, if_pos hx2] at h
          exact absurd h (by omega)
        · rw [if_neg hx1, if_neg hx2] at h
          have hm1 : t1 ∈ xs := by
            rcases List.mem_cons.mp h1 with h' | h'
            · exact absurd h'.symm hx1
            · exact h'
          have hm2 : t2 ∈ xs := by
            rcases List.mem_cons.mp h2 with h' | h'
            · exact absurd h'.symm hx2
            · exact h'
          exact ih hm1 hm2 (by omega)

/-- `cacheStep` returns membership, the index of the triple in the
updated cache, and an extension of the old cache. -/
theorem cacheStep_spec (c : List SpringTriple) (t : SpringTriple) :
    t ∈ (cacheStep c t).1 ∧ (cacheStep c t).2 = cacheIdx (cacheStep c t).1 t ∧
    ∃ d, (cacheStep c t).1 = c ++ d := by
  unfold cacheStep
  by_cases h : t ∈ c
  · rw [if_pos h]
    exact ⟨h, rfl, ⟨[], by simp⟩⟩
  · rw [if_neg h]
    exact ⟨by simp, (cacheIdx_append_self c t h).symm, ⟨[t], rfl⟩⟩

/-! ## Claim theorems -/

/-- C2 counterexample: from the initial state, `stop()` (reachable, sets
`escapedFromLock := true`) followed by `scrollToBottom` without
`preserveScrollPosition` leaves the engine with `isAtBottom = true`
while `escapedFromLock = true`; moreover the hook's returned flag is
`isAtBottom || isNearBottom`, which is true in a state that is merely
near-bottom while escaped. This falsifies the claimed invariant. -/
theorem c2_counterexample :
    (scrollToBottomEntry false (stopScroll initialState)).isAtBottom = true ∧
    (scrollToBottomEntry false (stopScroll initialState)).escapedFromLock = true ∧
    hookIsAtBottom escapedNearState = true := by
  refine ⟨?_, ?_, rfl⟩ <;> simp [scrollToBottomEntry, stopScroll, initialState]

/-- C2 (amended): `scrollToBottom` without `preserveScrollPosition`
unconditionally sets `isAtBottom = true` and leaves `escapedFromLock`
untouched, and the hook's returned flag is the disjunction
`isAtBottom || isNearBottom` — so the observable flag can be true while
`escapedFromLock` is true. -/
theorem c2_amended (s : StickToBottomState) :
    (scrollToBottomEntry false s).isAtBottom = true ∧
    (scrollToBottomEntry false s).escapedFromLock = s.escapedFromLock ∧
    hookIsAtBottom s = (s.isAtBottom || s.isNearBottom) := by
  refine ⟨?_, ?_, rfl⟩ <;> simp [scrollToBottomEntry]

/-- C3 counterexample: a frame whose write moves the offset (from 0 to 4)
still resets `accumulated` to 0, while the claim's wording (embodied in
`springFrameClaimed`) would leave it at 4: the reset condition in the
claim is inverted relative to the code. -/
theorem c3_counterexample :
    springFrame DEFAULT_SPRING_ANIMATION id
        { scrollTop := 0, target := 100, velocity := 0, accumulated := 0, tickDelta := 1 } =
      { velocity := 4, accumulated := 0, scrollTop := 4 } ∧
    springFrameClaimed DEFAULT_SPRING_ANIMATION id
        { scrollTop := 0, target := 100, velocity := 0, accumulated := 0, tickDelta := 1 } =
      { velocity := 4, accumulated := 4, scrollTop := 4 } ∧
    (4 : ℚ) ≠ 0 := by
  norm_num [springFrame, springFrameClaimed, DEFAULT_SPRING_ANIMATION]

/-- C3 (amended): each spring frame computes
`velocity = (damping*velocity + stiffness*scrollDifference)/mass`, adds
`velocity*tickDelta` to `accumulated`, writes `offset + accumulated`,
and resets `accumulated` to 0 exactly when the write DID move the
offset; when the write did not move it (clamped), `accumulated` is kept. -/
theorem c3_amended (b : SpringTriple) (w : ℚ → ℚ) (f : FrameIn) :
    (springFrame b w f).velocity =
      (b.damping * f.velocity + b.stiffness * (f.target - f.scrollTop)) / b.mass ∧
    (springFrame b w f).scrollTop =
      w (f.scrollTop + (f.accumulated + (springFrame b w f).velocity * f.tickDelta)) ∧
    ((springFrame b w f).scrollTop ≠ f.scrollTop → (springFrame b w f).accumulated = 0) ∧
    ((springFrame b w f).scrollTop = f.scrollTop →
      (springFrame b w f).accumulated =
        f.accumulated + (springFrame b w f).velocity * f.tickDelta) := by
  refine ⟨rfl, rfl, ?_, ?_⟩ <;> intro h <;> simp only [springFrame] at h ⊢
  · rw [if_pos h]
  · rw [if_neg (fun hc => hc h)]

/-- C3 amended witness: the amended theorem applied at a concrete frame
whose write moves the offset, yielding the reset. -/
theorem c3_amended_witness :
    (springFrame DEFAULT_SPRING_ANIMATION id
      { scrollTop := 0, target := 100, velocity := 0, accumulated := 0,
        tickDelta := 1 }).accumulated = 0 := by
  have h := c3_amended DEFAULT_SPRING_ANIMATION id
    { scrollTop := 0, target := 100, velocity := 0, accumulated := 0, tickDelta := 1 }
  exact h.2.2.1 (by norm_num [springFrame, DEFAULT_SPRING_ANIMATION])

/-- C5 counterexample: an animation with an identical resolved behavior
is active, yet a `scrollToBottom` call whose `wait` is not `true` clears
the record and starts a new loop instead of returning the active
animation's promise (id 5). -/
theorem c5_counterexample :
    scrollToBottomDispatch false (Behavior.spring DEFAULT_SPRING_ANIMATION)
      (some { behavior := Behavior.spring DEFAULT_SPRING_ANIMATION,
              ignoreEscapes := false, promiseId := 5 }) =
    (none, Dispatch.newLoop) := by
  simp [scrollToBottomDispatch]

/-- C5 (amended): the existing promise is reused only when `wait === true`
and the active animation's behavior is the same resolved object; any
call with `wait !== true` first clears the record and always starts a
fresh loop. -/
theorem c5_amended (b : Behavior) (r : AnimationRec) (a : Option AnimationRec) :
    (r.behavior = b →
      scrollToBottomDispatch true b (some r) = (some r, Dispatch.existing r.promiseId)) ∧
    scrollToBottomDispatch false b a = (none, Dispatch.newLoop) := by
  constructor
  · intro h
    simp [scrollToBottomDispatch, h]
  · simp [scrollToBottomDispatch]

/-- C5 amended witness: a `wait: true` call with the identical behavior
reuses the active animation's promise (id 3). -/
theorem c5_amended_witness :
    scrollToBottomDispatch true Behavior.instant
      (some { behavior := Behavior.instant, ignoreEscapes := false, promiseId := 3 }) =
    (some { behavior := Behavior.instant, ignoreEscapes := false, promiseId := 3 },
     Dispatch.existing 3) := by
  exact (c5_amended Behavior.instant
    { behavior := Behavior.instant, ignoreEscapes := false, promiseId := 3 } none).1 rfl

/-- C6 counterexample: for `[{damping: 0.5}, "instant", {}]` the code
keeps the earlier override (damping 1/2) after the `"instant"` is
un-marked by the trailing object, while the claim's wording (embodied in
`mergeAnimationsClaimed`) would have reset it to the default 0.7. -/
theorem c6_counterexample :
    mergeAnimations
        [AnimSource.obj (some (1/2)) none none, AnimSource.instant,
         AnimSource.obj none none none] =
      Behavior.spring { damping := 1/2, stiffness := 1/20, mass := 5/4 } ∧
    mergeAnimationsClaimed
        [AnimSource.obj (some (1/2)) none none, AnimSource.instant,
         AnimSource.obj none none none] =
      Behavior.spring { damping := 7/10, stiffness := 1/20, mass := 5/4 } ∧
    (1/2 : ℚ) ≠ 7/10 := by
  norm_num [mergeAnimations, mergeAnimationsClaimed, mergeStep, mergeStepClaimed,
    DEFAULT_SPRING_ANIMATION]

/-- C6 (amended): sources are applied left-to-right with later objects
overriding earlier numeric fields; `"instant"` marks the result instant
WITHOUT resetting the accumulated overrides, and a later object source
un-marks it, continuing from the accumulated triple: the resulting
triple is the fold of the object sources alone, and the instant flag
holds exactly when the last object-or-instant source is `"instant"`. -/
theorem c6_amended (sources : List AnimSource) :
    mergeAnimations sources =
      if finalInstant sources then Behavior.instant
      else Behavior.spring (finalTriple sources) := by
  simp [mergeAnimations, finalTriple, finalInstant, foldl_mergeStep_split]

/-- C10: a scroll notification whose event target is not
`scrollRef.current` is dropped before any processing: the state record
is returned unchanged in every field and no deferred check is scheduled. -/
theorem c10_foreign_target_ignored (calcTarget : ℚ) (s : StickToBottomState) :
    handleScrollSync false calcTarget s = (s, none) := by
  simp [handleScrollSync]

/-- C1 counterexample: in a state whose active animation is flagged
`ignoreEscapes`, a notification processed while a text selection spans
the surface (no resize in progress, offset not the ignored programmatic
one) DOES escape: `escapedFromLock` becomes true and `isAtBottom` false,
because the selection check runs before the `ignoreEscapes` check. -/
theorem c1_counterexample :
    animIgnoresEscapes ignoringAnimState = true ∧
    (handleScrollTimeout true { ignoreScrollToTop := none, lastScrollTop := 50 } 100 id
        ignoringAnimState).escapedFromLock = true ∧
    (handleScrollTimeout true { ignoreScrollToTop := none, lastScrollTop := 50 } 100 id
        ignoringAnimState).isAtBottom = false := by
  refine ⟨rfl, ?_, ?_⟩ <;> decide

/-- C1 (amended): the priority is the reverse of the claim: when a text
selection spanning the surface is active the notification escapes even
during an `ignoreEscapes` animation; the `ignoreEscapes` suppression
(forcing the offset back to `lastScrollTop` and changing nothing else)
applies only when no selection is active. -/
theorem c1_amended (selecting : Bool) (captured : DeferredCheck) (calcTarget : ℚ)
    (w : ℚ → ℚ) (s : StickToBottomState)
    (hresize : s.resizeDifference = 0)
    (hignore : captured.ignoreScrollToTop ≠ some s.scrollTop) :
    (selecting = true →
      handleScrollTimeout selecting captured calcTarget w s =
        { s with escapedFromLock := true, isAtBottom := false }) ∧
    (selecting = false → animIgnoresEscapes s = true →
      handleScrollTimeout selecting captured calcTarget w s =
        { s with scrollTop := w captured.lastScrollTop,
                 ignoreScrollToTop := some (w captured.lastScrollTop) }) := by
  constructor
  · intro hs
    subst hs
    simp [handleScrollTimeout, hresize, hignore]
  · intro hs hig
    subst hs
    simp [handleScrollTimeout, hresize, hignore, hig]

/-- C1 amended witness: with no selection active, the `ignoreEscapes`
animation forces the offset back to the captured `lastScrollTop` (50). -/
theorem c1_amended_witness :
    (handleScrollTimeout false { ignoreScrollToTop := none, lastScrollTop := 50 } 100 id
      ignoringAnimState).scrollTop = 50 := by
  have h := (c1_amended false { ignoreScrollToTop := none, lastScrollTop := 50 } 100 id
      ignoringAnimState rfl (by simp [ignoringAnimState, initialState])).2 rfl rfl
  rw [h]
  simp

/-- C4 counterexample: with 500px content, a 500px viewport and the
surface at offset 0, the derived target is `max(0, 500 - 1 - 500) = 0`,
not 499: the instant scroll leaves the offset at 0 (and the promise
resolves true), falsifying the claimed offset of 499. -/
theorem c4_counterexample :
    (instantScenario.map fun p => (p.1.scrollTop, p.2)) =
      some ((0 : ℚ), FrameResult.resolve true) ∧ (0 : ℚ) ≠ 499 := by
  norm_num [instantScenario, targetScrollTop, mergeAnimations, mergeStep,
    DEFAULT_SPRING_ANIMATION, scrollToBottomEntry, scrollToBottomDispatch,
    initialState, runFrames, animFrame, animBehaviorIs, max_def, min_def]

/-- C4 (amended): in the 500px/500px scenario the derived target
`max(0, scrollHeight - 1 - clientHeight)` is 0, so
`scrollToBottom({animation: "instant"})` leaves the offset at 0 (already
at target) and the promise resolves `true`. -/
theorem c4_amended :
    targetScrollTop ScrollMode.element true 500 500 = 0 ∧
    (instantScenario.map fun p => (p.1.scrollTop, p.2)) =
      some ((0 : ℚ), FrameResult.resolve true) := by
  constructor
  · norm_num [targetScrollTop, max_def]
  · norm_num [instantScenario, targetScrollTop, mergeAnimations, mergeStep,
      DEFAULT_SPRING_ANIMATION, scrollToBottomEntry, scrollToBottomDispatch,
      initialState, runFrames, animFrame, animBehaviorIs, max_def, min_def]

/-- C7: two successive calls to the cached resolver (the second running
on the cache the first left behind) return spring objects with the same
identity exactly when their parameter triples are equal by value, so
identity comparison between results is value comparison of the triples. -/
theorem c7_cache_identity (c : List SpringTriple) (l1 l2 : List AnimSource)
    (i1 i2 : Nat) (t1 t2 : SpringTriple)
    (h1 : (mergeAnimationsCached c l1).2 = CachedBehavior.springRef i1 t1)
    (h2 : (mergeAnimationsCached (mergeAnimationsCached c l1).1 l2).2 =
      CachedBehavior.springRef i2 t2) :
    i1 = i2 ↔ t1 = t2 := by
  simp only [mergeAnimationsCached] at h1 h2
  by_cases e1 : (l1.foldl mergeStep (DEFAULT_SPRING_ANIMATION, false)).2 = true
  · rw [if_pos e1] at h1
    exact absurd h1 (by simp)
  · rw [if_neg e1] at h1
    by_cases e2 :
        (l2.foldl mergeStep (DEFAULT_SPRING_ANIMATION, false)).2 = true
    · rw [if_pos e2] at h2
      exact absurd h2 (by simp)
    · rw [if_neg e2] at h2
      obtain ⟨hi1, ht1⟩ := CachedBehavior.springRef.inj h1
      obtain ⟨hi2, ht2⟩ := CachedBehavior.springRef.inj h2
      set r1 := (l1.foldl mergeStep (DEFAULT_SPRING_ANIMATION, false)).1 with hr1
      set r2 := (l2.foldl mergeStep (DEFAULT_SPRING_ANIMATION, false)).1 with hr2
      obtain ⟨hm1, hidx1, d1, hext1⟩ := cacheStep_spec c r1
      obtain ⟨hm2, hidx2, d2, hext2⟩ := cacheStep_spec ((cacheStep c r1).1) r2
      subst ht1 ht2
      have hmem1 : r1 ∈ (cacheStep (cacheStep c r1).1 r2).1 := by
        rw [hext2]
        exact List.mem_append_left _ hm1
      have hstable : cacheIdx (cacheStep (cacheStep c r1).1 r2).1 r1 =
          cacheIdx (cacheStep c r1).1 r1 := by
        rw [hext2]
        exact cacheIdx_append_of_mem _ _ _ hm1
      have hI1 : i1 = cacheIdx (cacheStep c r1).1 r1 := by
        rw [← hi1]
        exact hidx1
      have hI2 : i2 = cacheIdx (cacheStep (cacheStep c r1).1 r2).1 r2 := by
        rw [← hi2]
        exact hidx2
      have hI1' : i1 = cacheIdx (cacheStep (cacheStep c r1).1 r2).1 r1 := by
        rw [hI1, ← hstable]
      constructor
      · intro hii
        refine cacheIdx_inj _ r1 r2 hmem1 hm2 ?_
        rw [← hI1', ← hI2, hii]
      · intro htt
        rw [hI1', hI2, htt]

/-- C7 witness: starting from an empty cache, the default triple and the
distinct triple `{damping := 1}` receive distinct identities (0 and 1),
so identity equivalence degenerates to the equivalence of two
falsehoods. -/
theorem c7_cache_identity_witness :
    (0 = 1) ↔
      (DEFAULT_SPRING_ANIMATION =
        { damping := 1, stiffness := 1/20, mass := 5/4 : SpringTriple }) := by
  refine c7_cache_identity [] [] [AnimSource.obj (some 1) none none] 0 1
    DEFAULT_SPRING_ANIMATION { damping := 1, stiffness := 1/20, mass := 5/4 } ?_ ?_
  · simp [mergeAnimationsCached, cacheStep, cacheIdx]
  · norm_num [mergeAnimationsCached, mergeStep, cacheStep, cacheIdx,
      DEFAULT_SPRING_ANIMATION]

/-- C8: the derived `calculatedTargetScrollTop` always lies in
`[0, targetScrollTop]`; it equals `targetScrollTop` when no custom
resolver is configured, and is the resolver's output clamped into the
interval otherwise — for every resolver output, provided the per-frame
memo is well-formed (it only ever stores clamped values) and granting
that in document mode a scroll element always exists (the source's
`getDocumentScrollElement` never returns null). -/
theorem c8_calculated_target_clamped
    (mode : ScrollMode) (hasContent hasScrollElement : Bool)
    (scrollHeight clientHeight : ℚ) (resolver : Option (ℚ → ℚ))
    (memo : Option LastCalculation)
    (hm : memoWellFormed memo)
    (hdoc : mode = ScrollMode.document → hasScrollElement = true) :
    0 ≤ calculatedTargetScrollTop mode hasContent hasScrollElement
        scrollHeight clientHeight resolver memo ∧
    calculatedTargetScrollTop mode hasContent hasScrollElement
        scrollHeight clientHeight resolver memo ≤
      targetScrollTop mode hasContent scrollHeight clientHeight ∧
    (resolver = none →
      calculatedTargetScrollTop mode hasContent hasScrollElement
          scrollHeight clientHeight resolver memo =
        targetScrollTop mode hasContent scrollHeight clientHeight) := by
  have htnn : 0 ≤ targetScrollTop mode hasContent scrollHeight clientHeight := by
    unfold targetScrollTop
    split
    · exact le_refl 0
    · exact le_max_left _ _
  cases resolver with
  | none =>
      simp only [calculatedTargetScrollTop]
      split_ifs with hg1 hg2
      · have ht0 : targetScrollTop mode hasContent scrollHeight clientHeight = 0 := by
          unfold targetScrollTop
          rw [if_pos hg1]
        exact ⟨le_refl 0, ht0.ge, fun _ => ht0.symm⟩
      · exact absurd (hdoc hg2.1) hg2.2
      · exact ⟨htnn, le_refl _, fun _ => rfl⟩
  | some f =>
      cases memo with
      | none =>
          simp only [calculatedTargetScrollTop]
          split_ifs with hg1 hg2
          · have ht0 : targetScrollTop mode hasContent scrollHeight clientHeight = 0 := by
              unfold targetScrollTop
              rw [if_pos hg1]
            exact ⟨le_refl 0, ht0.ge, fun hc => by cases hc⟩
          · exact absurd (hdoc hg2.1) hg2.2
          · exact ⟨le_max_right _ _, max_le (min_le_right _ _) htnn,
              fun hc => by cases hc⟩
      | some lc =>
          simp only [calculatedTargetScrollTop]
          split_ifs with hg1 hg2 heq
          · have ht0 : targetScrollTop mode hasContent scrollHeight clientHeight = 0 := by
              unfold targetScrollTop
              rw [if_pos hg1]
            exact ⟨le_refl 0, ht0.ge, fun hc => by cases hc⟩
          · exact absurd (hdoc hg2.1) hg2.2
          · exact ⟨(hm lc rfl).1, le_of_le_of_eq (hm lc rfl).2 heq, fun hc => by cases hc⟩
          · exact ⟨le_max_right _ _, max_le (min_le_right _ _) htnn,
              fun hc => by cases hc⟩

/-- C8 witness: element mode with a content surface, 500px scroll height
and 100px viewport, a resolver that asks for 1000 and no memo: the
clamped value stays within `[0, 399]`. -/
theorem c8_witness :
    0 ≤ calculatedTargetScrollTop ScrollMode.element true true 500 100
        (some fun _ => 1000) none ∧
    calculatedTargetScrollTop ScrollMode.element true true 500 100
        (some fun _ => 1000) none ≤
      targetScrollTop ScrollMode.element true 500 100 := by
  have h := c8_calculated_target_clamped ScrollMode.element true true 500 100
    (some fun _ => 1000) none (fun lc hlc => Option.noConfusion hlc)
    (fun hmode => ScrollMode.noConfusion hmode)
  exact ⟨h.1, h.2.1⟩

/-- C9: `stop()` sets the two flags without touching the in-flight
animation record, and the very next frame callback of the loop observes
`isAtBottom = false`, clears the record and resolves `false` — for every
frame environment, so within at most one animation-frame callback. -/
theorem c9_stop_resolves_false (s : StickToBottomState) (r : AnimationRec)
    (h : s.animation = some r) :
    (stopScroll s).animation = some r ∧
    ∀ (env : FrameEnv) (w : ℚ → ℚ) (startTarget : ℚ),
      animFrame env w startTarget (stopScroll s) =
        ({ stopScroll s with animation := none }, FrameResult.resolve false) := by
  refine ⟨h, ?_⟩
  intro env w st
  simp [animFrame, stopScroll]

/-- C9 witness: stopping the concrete running-animation state makes the
next frame resolve `false` and clear the record. -/
theorem c9_stop_resolves_false_witness :
    animFrame zeroFrameEnv id 0 (stopScroll animRunningState) =
      ({ initialState with
          animation := none, escapedFromLock := true, isAtBottom := false },
        FrameResult.resolve false) := by
  have h := (c9_stop_resolves_false animRunningState instantAnimRec rfl).2 zeroFrameEnv id 0
  rw [h]
  simp [stopScroll, animRunningState, initialState]

end StickToBottom
